import Mathlib

/-!
Verification of the voice-chat pipeline orchestrator
(`app/main.py`, `app/stt.py`, `app/llm.py`, `app/tts.py`).

The embedding models the filesystem as a finite map from paths to file
contents, where a path is a pair (directory, file name) mirroring
`os.path.join(dir, name)`.  External collaborators (the whisper.cpp
binary, the Gemini chat API, the Coqui `tts` binary, the clock) are
parameterised by an `Env` record describing one request's observable
collaborator behaviour.  Python functions that can raise are embedded
with `Except String`; a `.error` value is an uncaught Python exception
carrying `str(e)`.
-/

/-- A file path: (directory, file name), as produced by `os.path.join`. -/
abbrev FsPath := String × String

/-- The filesystem: an association list from paths to file contents
(earlier entries shadow later ones, giving overwrite-on-write). -/
abbrev FS := List (FsPath × String)

/-- `os.path.exists` / reading: look up the first entry for `p`. -/
def fsRead (fs : FS) (p : FsPath) : Option String :=
  (fs.find? (fun e => decide (e.1 = p))).map (fun e => e.2)

/-- `os.path.exists p`. -/
def fsExists (fs : FS) (p : FsPath) : Bool :=
  (fsRead fs p).isSome

/-- `open(p, "wb").write(c)`: create or overwrite the file at `p`. -/
def fsWrite (fs : FS) (p : FsPath) (c : String) : FS :=
  (p, c) :: fs

/-- `os.remove p`. -/
def fsRemove (fs : FS) (p : FsPath) : FS :=
  fs.filter (fun e => !(decide (e.1 = p)))

/-- Recursive removal of a directory, as done by
`tempfile.TemporaryDirectory.__exit__`. -/
def fsRemoveDir (fs : FS) (d : String) : FS :=
  fs.filter (fun e => !(decide (e.1.1 = d)))

/-- Index of the last occurrence of `c` in `l` (`str.rfind`). -/
def lastIndexOfC (l : List Char) (c : Char) : Option Nat :=
  match l with
  | [] => none
  | x :: xs =>
    match lastIndexOfC xs c with
    | some i => some (i + 1)
    | none => if x = c then some 0 else none

/-- `os.path.splitext`: split a file name into (root, extension); the
extension starts at the last dot, provided that dot comes after the last
path separator and the characters between them are not all dots. -/
def splitext (s : String) : String × String :=
  let l := s.data
  match lastIndexOfC l '.' with
  | none => (s, "")
  | some di =>
    let fi : Nat :=
      match lastIndexOfC l '/' with
      | none => 0
      | some si => si + 1
    if fi ≤ di then
      if ((l.drop fi).take (di - fi)).all (fun ch => ch == '.') then (s, "")
      else (String.mk (l.take di), String.mk (l.drop di))
    else (s, "")

/-- Python `str.lower()` (ASCII case mapping, which is all the
extension comparison exercises). -/
def pyLower (s : String) : String :=
  String.mk (s.data.map Char.toLower)

/-- Python `str.strip()`: drop leading and trailing whitespace. -/
def pyStrip (s : String) : String :=
  String.mk
    (((s.data.dropWhile Char.isWhitespace).reverse.dropWhile
        Char.isWhitespace).reverse)

/-- `os.path.splitext(filename)[1].lower()` as computed by the handler. -/
def fileExtOf (filename : String) : String :=
  pyLower (splitext filename).2

/-- `ALLOWED_AUDIO_EXTENSIONS` from `main.py`. -/
def ALLOWED_AUDIO_EXTENSIONS : List String :=
  [".wav", ".mp3", ".ogg", ".m4a"]

/-- The decimal digit character for `d` (with `d ≥ 9` clamped to `9`;
it is only ever applied to `d < 10`). -/
def digitChar (d : Nat) : Char :=
  match d with
  | 0 => '0'
  | 1 => '1'
  | 2 => '2'
  | 3 => '3'
  | 4 => '4'
  | 5 => '5'
  | 6 => '6'
  | 7 => '7'
  | 8 => '8'
  | _ => '9'

/-- Numeric value of a decimal digit character. -/
def charVal (c : Char) : Nat := c.toNat - 48

/-- Decimal digit characters of `n`, most significant first. -/
def natDigits (n : Nat) : List Char :=
  if n < 10 then [digitChar n]
  else natDigits (n / 10) ++ [digitChar (n % 10)]
decreasing_by exact Nat.div_lt_self (by omega) (by omega)

/-- Three zero-padded decimal digits of `r` (for `r < 1000`). -/
def pad3 (r : Nat) : List Char :=
  [digitChar (r / 100), digitChar (r / 10 % 10), digitChar (r % 10)]

/-- The stage-timing string Python stores with `f"{secs:.3f}s"`, where
the elapsed time is `m` milliseconds. -/
def fmtMs (m : Nat) : String :=
  String.mk (natDigits (m / 1000) ++ '.' :: (pad3 (m % 1000) ++ ['s']))

/-- Split a character list at the first `'.'` (the shape `float` sees). -/
def splitAtDot : List Char → List Char × List Char
  | [] => ([], [])
  | c :: cs =>
    if c = '.' then ([], cs)
    else
      let r := splitAtDot cs
      (c :: r.1, r.2)

/-- Value of a list of decimal digit characters. -/
def digitsVal (l : List Char) : Nat :=
  l.foldl (fun a c => 10 * a + charVal c) 0

/-- Python `float` on a non-negative decimal literal `"a.b"`. -/
def pyFloatOfChars (l : List Char) : ℚ :=
  let p := splitAtDot l
  (digitsVal p.1 : ℚ) + (digitsVal p.2 : ℚ) / (10 : ℚ) ^ p.2.length

/-- Python `str.rstrip(c)`: drop every trailing occurrence of `c`. -/
def pyRstrip (s : String) (c : Char) : String :=
  String.mk ((s.data.reverse.dropWhile (fun x => x == c)).reverse)

/-- `float(t.rstrip('s'))` as applied by the handler to a stored
stage-timing string. -/
def parseTimeS (t : String) : ℚ :=
  pyFloatOfChars (pyRstrip t 's').data

/-- `COQUI_DIR` of `tts.py` (`BASE_DIR/coqui_utils`). -/
def COQUI_DIR : String := "app/coqui_utils"

/-- `tempfile.gettempdir()`, the shared temp area used by `tts.py`. -/
def SHARED_TMP : String := "/tmp"

/-- `COQUI_MODEL_PATH`. -/
def coquiModelPath : FsPath := (COQUI_DIR, "checkpoint_1260000-inference.pth")

/-- `COQUI_CONFIG_PATH`. -/
def coquiConfigPath : FsPath := (COQUI_DIR, "config.json")

/-- `COQUI_SPEAKERS_PATH`. -/
def coquiSpeakersPath : FsPath := (COQUI_DIR, "speakers.pth")

/-- The pre-recorded fallback sample `COQUI_DIR/test_output.wav`. -/
def samplePath : FsPath := (COQUI_DIR, "test_output.wav")

/-- Observable behaviour of one request's external collaborators and
of the fresh names the OS hands out (temp directories, uuids, clock). -/
structure Env where
  reqTmpDir : String := "/tmp/tmpreq1"
  reqUuid : String := "req-uuid"
  sttTmpDir : String := "/tmp/tmpstt1"
  sttUuid : String := "stt-uuid"
  ttsUuid : String := "tts-uuid"
  fbUuid : String := "fb-uuid"
  saveOk : Bool := true
  saveErr : String := "disk full"
  whisperBinaryExists : Bool := true
  whisperSpawnErr : String := "No such file or directory"
  whisperExitOk : Bool := true
  whisperErr : String := "exit status 1"
  whisperWritesOutput : Bool := true
  whisperOutput : String := " halo\n"
  geminiResult : Except String (Option String) := Except.ok (some "Hai")
  historyDumpOk : Bool := true
  ttsBinaryExists : Bool := true
  ttsSpawnErr : String := "No such file or directory"
  ttsExitOk : Bool := true
  ttsWritesOutput : Bool := true
  ttsOutputBytes : String := "RIFFdata"
  tSave : Nat := 1
  tStt : Nat := 1
  tLlm : Nat := 1
  tTts : Nat := 1

/-- `stt.py`, `transcribe_speech_to_text`: write the bytes into a fresh
scratch directory, invoke whisper.cpp, read back the transcript, and
remove the scratch directory on every path.  `Except.error` models an
uncaught exception (the binary missing at `subprocess.run`); a non-zero
exit (`CalledProcessError`) and a missing output file are caught inside
and returned as sentinel strings. -/
def transcribe_speech_to_text (env : Env) (fs : FS) (fileBytes : String)
    (fileExt : String) : Except String String × FS :=
  let audioPath : FsPath := (env.sttTmpDir, env.sttUuid ++ fileExt)
  let resultPath : FsPath := (env.sttTmpDir, "transcription.txt")
  let fs1 := fsWrite fs audioPath fileBytes
  if !env.whisperBinaryExists then
    (Except.error env.whisperSpawnErr, fsRemoveDir fs1 env.sttTmpDir)
  else if !env.whisperExitOk then
    (Except.ok ("[ERROR] Whisper failed: " ++ env.whisperErr),
     fsRemoveDir fs1 env.sttTmpDir)
  else
    let fs2 :=
      if env.whisperWritesOutput then fsWrite fs1 resultPath env.whisperOutput
      else fs1
    match fsRead fs2 resultPath with
    | some content => (Except.ok content, fsRemoveDir fs2 env.sttTmpDir)
    | none =>
      (Except.ok "[ERROR] Transcription file not found",
       fsRemoveDir fs2 env.sttTmpDir)

/-- `llm.py`, the body of `save_chat_history`: `json.dump`, which may
fail. -/
def json_dump_history (env : Env) : Except String Unit :=
  if env.historyDumpOk then Except.ok () else Except.error "dump failed"

/-- `llm.py`, `save_chat_history`: catches every exception from the dump
and only prints it. -/
def save_chat_history (env : Env) : Except String Unit :=
  match json_dump_history env with
  | Except.ok _ => Except.ok ()
  | Except.error _ => Except.ok ()

/-- `chat.send_message(prompt)`: the Gemini collaborator; `.error` is a
raised exception, `.ok none` a `None` reply text, `.ok (some t)` a reply
with text `t`. -/
def send_message (env : Env) (_prompt : String) : Except String (Option String) :=
  env.geminiResult

/-- Python `try ... except Exception as e: handler` over `Except`. -/
def pyTryCatch (x : Except String α) (h : String → Except String α) :
    Except String α :=
  match x with
  | Except.ok a => Except.ok a
  | Except.error e => h e

/-- `llm.py`, `generate_response`: sends the prompt, persists history,
returns `response.text or "[ERROR] No response from model"`; any raised
exception is caught and returned as `"[ERROR] " ++ str(e)`. -/
def generate_response (env : Env) (prompt : String) : Except String String :=
  pyTryCatch
    (do
      let text ← send_message env prompt
      let _ ← save_chat_history env
      pure (match text with
            | none => "[ERROR] No response from model"
            | some s => if s = "" then "[ERROR] No response from model" else s))
    (fun e => Except.ok ("[ERROR] " ++ e))

/-- The value `tts.py` returns: either a path to a produced audio file,
or one of its `"[ERROR] ..."` sentinel strings used in place of a path. -/
inductive TtsReturn where
  | path (p : FsPath)
  | errStr (s : String)
deriving DecidableEq, Repr

/-- The fresh output path `tts_{uuid}.wav` in the shared temp area. -/
def ttsOutputPath (env : Env) : FsPath :=
  (SHARED_TMP, "tts_" ++ env.ttsUuid ++ ".wav")

/-- The fresh fallback path `fallback_tts_{uuid}.wav` in the shared temp
area. -/
def ttsFallbackPath (env : Env) : FsPath :=
  (SHARED_TMP, "fallback_tts_" ++ env.fbUuid ++ ".wav")

/-- The `for path, desc in [...]` loop of `_tts_with_coqui`: description
of the first missing required artifact, if any. -/
def missingArtifactDesc (fs : FS) : Option String :=
  if !fsExists fs coquiModelPath then some "Model file"
  else if !fsExists fs coquiConfigPath then some "Config file"
  else if !fsExists fs coquiSpeakersPath then some "Speakers file"
  else none

/-- The repeated fallback block of `_tts_with_coqui`: copy the sample to
a fresh fallback path if it exists, otherwise return `onMissing`. -/
def ttsFallback (env : Env) (fs : FS) (onMissing : String) : TtsReturn × FS :=
  if fsExists fs samplePath then
    (TtsReturn.path (ttsFallbackPath env),
     fsWrite fs (ttsFallbackPath env) ((fsRead fs samplePath).getD ""))
  else (TtsReturn.errStr onMissing, fs)

/-- `tts.py`, `_tts_with_coqui`: verify the three model artifacts, run
the `tts` subprocess, verify its output, falling back to a copy of the
pre-recorded sample on any of the three soft-failure branches.
`Except.error` models the uncaught exception raised when the `tts`
binary itself is absent at `subprocess.run`. -/
def tts_with_coqui (env : Env) (fs : FS) (_text : String) :
    Except String TtsReturn × FS :=
  match missingArtifactDesc fs with
  | some desc =>
    let r := ttsFallback env fs ("[ERROR] " ++ desc ++ " not found and no fallback available")
    (Except.ok r.1, r.2)
  | none =>
    if !env.ttsBinaryExists then (Except.error env.ttsSpawnErr, fs)
    else if env.ttsExitOk then
      let fs1 :=
        if env.ttsWritesOutput then fsWrite fs (ttsOutputPath env) env.ttsOutputBytes
        else fs
      if fsExists fs1 (ttsOutputPath env) then
        (Except.ok (TtsReturn.path (ttsOutputPath env)), fs1)
      else
        let r := ttsFallback env fs1 "[ERROR] Failed to create audio file"
        (Except.ok r.1, r.2)
    else
      let r := ttsFallback env fs "[ERROR] Failed to synthesize speech"
      (Except.ok r.1, r.2)

/-- `tts.py`, `transcribe_text_to_speech`: delegates to the Coqui engine. -/
def transcribe_text_to_speech (env : Env) (fs : FS) (text : String) :
    Except String TtsReturn × FS :=
  tts_with_coqui env fs text

/-- The metadata dictionary `response_data` assembled by the handler. -/
structure ResponseData where
  transcribed_text : Option String := none
  ai_response : Option String := none
  process_times : List (String × String) := []
  total_process_time : Option ℚ := none
deriving DecidableEq, Repr

/-- The handler's outcome as seen by the transport layer: a
`FileResponse` (status 200) or a raised `HTTPException`. -/
inductive HttpResult where
  | fileResponse (path : TtsReturn) (data : ResponseData)
  | httpError (statusCode : Nat) (detail : String)
deriving DecidableEq, Repr

/-- HTTP status code of a result (`FileResponse` defaults to 200). -/
def HttpResult.statusCode : HttpResult → Nat
  | HttpResult.fileResponse _ _ => 200
  | HttpResult.httpError s _ => s

/-- The `path` argument handed to `FileResponse`, when there is one. -/
def HttpResult.responsePath : HttpResult → Option TtsReturn
  | HttpResult.fileResponse p _ => some p
  | HttpResult.httpError _ _ => none

/-- The `total_process_time` of a successful response. -/
def HttpResult.totalOf : HttpResult → Option ℚ
  | HttpResult.fileResponse _ d => d.total_process_time
  | HttpResult.httpError _ _ => none

/-- The `process_times` of a successful response. -/
def HttpResult.timesOf : HttpResult → List (String × String)
  | HttpResult.fileResponse _ d => d.process_times
  | HttpResult.httpError _ _ => []

/-- Everything observable about one `POST /voice-chat` request: the
HTTP result, the filesystem after the handler returns (response
delivery deletes nothing), the entries appended to `TEMP_FILES`, the
`process_times` dictionary, the stages that started executing, and the
argument passed to `generate_response`. -/
structure RequestOutcome where
  result : HttpResult
  fs : FS
  tempFiles : List TtsReturn
  timings : List (String × String)
  stagesRun : List String
  sttTranscript : Option String := none
  promptToLlm : Option String := none
deriving Repr

/-- The validation detail string of `main.py`. -/
def unsupportedFormatDetail : String :=
  "Unsupported audio format. Allowed formats: " ++
    String.intercalate ", " ALLOWED_AUDIO_EXTENSIONS

/-- `main.py`, `voice_chat`: the `POST /voice-chat` handler.  Validates
the extension, opens a scratch directory, saves the upload, runs the
three stages, records timings after each completed stage, removes the
scratch directory on every exit path of the `with` block, and returns a
`FileResponse` on the synthesised (or fallback, or sentinel) path. -/
def voice_chat (env : Env) (fs0 : FS) (filename : String)
    (audioContent : String) : RequestOutcome :=
  let file_ext := fileExtOf filename
  if file_ext ∉ ALLOWED_AUDIO_EXTENSIONS then
    { result := HttpResult.httpError 400 unsupportedFormatDetail
      fs := fs0, tempFiles := [], timings := [], stagesRun := [] }
  else
    let tempAudioPath : FsPath := (env.reqTmpDir, env.reqUuid ++ file_ext)
    if !env.saveOk then
      { result := HttpResult.httpError 500 ("Failed to process audio: " ++ env.saveErr)
        fs := fsRemoveDir fs0 env.reqTmpDir, tempFiles := [], timings := []
        stagesRun := ["save_audio"] }
    else
      let fs1 := fsWrite fs0 tempAudioPath audioContent
      let t1 := [("save_audio", fmtMs env.tSave)]
      let audioBytes := (fsRead fs1 tempAudioPath).getD ""
      match transcribe_speech_to_text env fs1 audioBytes file_ext with
      | (Except.error e, fs2) =>
        { result := HttpResult.httpError 500 ("Speech-to-text failed: " ++ e)
          fs := fsRemoveDir fs2 env.reqTmpDir, tempFiles := [], timings := t1
          stagesRun := ["save_audio", "speech_to_text"] }
      | (Except.ok user_text, fs2) =>
        let t2 := t1 ++ [("speech_to_text", fmtMs env.tStt)]
        let prompt := pyStrip user_text
        match generate_response env prompt with
        | Except.error e =>
          { result := HttpResult.httpError 500 ("LLM processing failed: " ++ e)
            fs := fsRemoveDir fs2 env.reqTmpDir, tempFiles := [], timings := t2
            stagesRun := ["save_audio", "speech_to_text", "llm_response"]
            sttTranscript := some user_text, promptToLlm := some prompt }
        | Except.ok ai_response =>
          let t3 := t2 ++ [("llm_response", fmtMs env.tLlm)]
          match transcribe_text_to_speech env fs2 ai_response with
          | (Except.error e, fs3) =>
            { result := HttpResult.httpError 500 ("Text-to-speech failed: " ++ e)
              fs := fsRemoveDir fs3 env.reqTmpDir, tempFiles := [], timings := t3
              stagesRun := ["save_audio", "speech_to_text", "llm_response",
                            "text_to_speech"]
              sttTranscript := some user_text, promptToLlm := some prompt }
          | (Except.ok audio_output_path, fs3) =>
            let t4 := t3 ++ [("text_to_speech", fmtMs env.tTts)]
            let fs4 := fsRemoveDir fs3 env.reqTmpDir
            let total := (t4.map (fun kv => parseTimeS kv.2)).sum
            { result := HttpResult.fileResponse audio_output_path
                { transcribed_text := some user_text
                  ai_response := some ai_response
                  process_times := t4
                  total_process_time := some total }
              fs := fs4, tempFiles := [audio_output_path], timings := t4
              stagesRun := ["save_audio", "speech_to_text", "llm_response",
                            "text_to_speech"]
              sttTranscript := some user_text, promptToLlm := some prompt }

/-- `main.py`, `cleanup_temp_files` (the shutdown hook): for each
tracked entry, remove the file if it exists; sentinel strings never
name an existing file and are skipped. -/
def cleanup_temp_files (tempFiles : List TtsReturn) (fs : FS) : FS :=
  tempFiles.foldl
    (fun acc tr =>
      match tr with
      | TtsReturn.errStr _ => acc
      | TtsReturn.path p => if fsExists acc p then fsRemove acc p else acc)
    fs

/-- The string `generate_response` returns for a given collaborator
behaviour (it never raises; see the theorems below). -/
def llmReply (env : Env) : String :=
  match env.geminiResult with
  | Except.error e => "[ERROR] " ++ e
  | Except.ok none => "[ERROR] No response from model"
  | Except.ok (some s) => if s = "" then "[ERROR] No response from model" else s

/-- The string `transcribe_speech_to_text` returns when the whisper
binary exists (its scratch directory being fresh), by failure mode. -/
def sttResultStr (env : Env) : String :=
  if !env.whisperExitOk then "[ERROR] Whisper failed: " ++ env.whisperErr
  else if env.whisperWritesOutput then env.whisperOutput
  else "[ERROR] Transcription file not found"

/-- A filesystem holding all three Coqui artifacts and the fallback
sample. -/
def fsAllArtifacts : FS :=
  [(coquiModelPath, "model-bytes"), (coquiConfigPath, "config-bytes"),
   (coquiSpeakersPath, "speakers-bytes"), (samplePath, "sample-bytes")]

/-- A filesystem holding only the fallback sample (model artifacts
absent). -/
def fsSampleOnly : FS := [(samplePath, "sample-bytes")]

/-- The all-defaults environment: every collaborator behaves well. -/
def envDefault : Env := {}

/-- Environment whose whisper process exits non-zero. -/
def envWhisperFail : Env := { whisperExitOk := false, whisperErr := "boom" }

/-- Environment whose Gemini call raises. -/
def envGeminiRaise : Env := { geminiResult := Except.error "quota exceeded" }

/-! ### Filesystem lemmas -/

theorem fsRead_cons_of_eq (e : FsPath × String) (es : FS) (p : FsPath)
    (h : e.1 = p) : fsRead (e :: es) p = some e.2 := by
  unfold fsRead
  rw [List.find?_cons_of_pos _ (by simp [h])]
  rfl

theorem fsRead_cons_of_ne (e : FsPath × String) (es : FS) (p : FsPath)
    (h : e.1 ≠ p) : fsRead (e :: es) p = fsRead es p := by
  unfold fsRead
  rw [List.find?_cons_of_neg _ (by simp [h])]

theorem fsRead_write_self (fs : FS) (p : FsPath) (c : String) :
    fsRead (fsWrite fs p c) p = some c := by
  exact fsRead_cons_of_eq (p, c) fs p rfl

theorem fsRead_write_ne (fs : FS) (p q : FsPath) (c : String) (h : q ≠ p) :
    fsRead (fsWrite fs q c) p = fsRead fs p := by
  exact fsRead_cons_of_ne (q, c) fs p h

theorem fsExists_write_self (fs : FS) (p : FsPath) (c : String) :
    fsExists (fsWrite fs p c) p = true := by
  simp [fsExists, fsRead_write_self]

theorem fsExists_write_ne (fs : FS) (p q : FsPath) (c : String) (h : q ≠ p) :
    fsExists (fsWrite fs q c) p = fsExists fs p := by
  simp [fsExists, fsRead_write_ne fs p q c h]

theorem fsRead_removeDir_ne (fs : FS) (d : String) (p : FsPath)
    (h : p.1 ≠ d) : fsRead (fsRemoveDir fs d) p = fsRead fs p := by
  induction fs with
  | nil => rfl
  | cons e es ih =>
    by_cases hd : e.1.1 = d
    · have hne : e.1 ≠ p := fun hh => h (hh ▸ hd)
      rw [show fsRemoveDir (e :: es) d = fsRemoveDir es d from
            List.filter_cons_of_neg (by simp [hd])]
      rw [ih, fsRead_cons_of_ne e es p hne]
    · rw [show fsRemoveDir (e :: es) d = e :: fsRemoveDir es d from
            List.filter_cons_of_pos (by simp [hd])]
      by_cases hp : e.1 = p
      · rw [fsRead_cons_of_eq e _ p hp, fsRead_cons_of_eq e es p hp]
      · rw [fsRead_cons_of_ne e _ p hp, fsRead_cons_of_ne e es p hp, ih]

theorem fsExists_removeDir_ne (fs : FS) (d : String) (p : FsPath)
    (h : p.1 ≠ d) : fsExists (fsRemoveDir fs d) p = fsExists fs p := by
  simp [fsExists, fsRead_removeDir_ne fs d p h]

theorem fsRead_removeDir_self (fs : FS) (d : String) (p : FsPath)
    (h : p.1 = d) : fsRead (fsRemoveDir fs d) p = none := by
  induction fs with
  | nil => rfl
  | cons e es ih =>
    by_cases hd : e.1.1 = d
    · rw [show fsRemoveDir (e :: es) d = fsRemoveDir es d from
            List.filter_cons_of_neg (by simp [hd])]
      exact ih
    · have hne : e.1 ≠ p := fun hh => hd (by rw [hh]; exact h)
      rw [show fsRemoveDir (e :: es) d = e :: fsRemoveDir es d from
            List.filter_cons_of_pos (by simp [hd])]
      rw [fsRead_cons_of_ne e _ p hne, ih]

theorem fsExists_removeDir_self (fs : FS) (d : String) (p : FsPath)
    (h : p.1 = d) : fsExists (fsRemoveDir fs d) p = false := by
  simp [fsExists, fsRead_removeDir_self fs d p h]

theorem fsRead_remove_self (fs : FS) (p : FsPath) :
    fsRead (fsRemove fs p) p = none := by
  induction fs with
  | nil => rfl
  | cons e es ih =>
    by_cases hp : e.1 = p
    · rw [show fsRemove (e :: es) p = fsRemove es p from
            List.filter_cons_of_neg (by simp [hp])]
      exact ih
    · rw [show fsRemove (e :: es) p = e :: fsRemove es p from
            List.filter_cons_of_pos (by simp [hp])]
      rw [fsRead_cons_of_ne e _ p hp, ih]

theorem fsExists_remove_self (fs : FS) (p : FsPath) :
    fsExists (fsRemove fs p) p = false := by
  simp [fsExists, fsRead_remove_self]

theorem fsExists_of_fsExists_filter (fs : FS) (g : FsPath × String → Bool)
    (p : FsPath) (h : fsExists (fs.filter g) p = true) :
    fsExists fs p = true := by
  induction fs with
  | nil => simpa [List.filter_nil] using h
  | cons e es ih =>
    by_cases hp : e.1 = p
    · simp [fsExists, fsRead_cons_of_eq e es p hp]
    · by_cases hg : g e
      · rw [List.filter_cons_of_pos hg] at h
        rw [fsExists, fsRead_cons_of_ne e _ p hp] at h
        rw [fsExists, fsRead_cons_of_ne e es p hp]
        exact ih h
      · rw [List.filter_cons_of_neg hg] at h
        rw [fsExists, fsRead_cons_of_ne e es p hp]
        exact ih h

/-! ### Timing string format / parse lemmas -/

theorem charVal_digitChar (d : Nat) (h : d < 10) :
    charVal (digitChar d) = d := by
  interval_cases d <;> rfl

theorem digitChar_ne_dot (d : Nat) : digitChar d ≠ '.' := by
  unfold digitChar
  split <;> decide

theorem digitChar_ne_s (d : Nat) : digitChar d ≠ 's' := by
  unfold digitChar
  split <;> decide

theorem natDigits_ne_dot (n : Nat) : ∀ c ∈ natDigits n, c ≠ '.' := by
  induction n using Nat.strong_induction_on with
  | _ n ih =>
    rw [natDigits]
    split
    · intro c hc
      simp only [List.mem_singleton] at hc
      exact hc ▸ digitChar_ne_dot n
    · intro c hc
      rw [List.mem_append] at hc
      rcases hc with h | h
      · exact ih (n / 10) (Nat.div_lt_self (by omega) (by omega)) c h
      · simp only [List.mem_singleton] at h
        exact h ▸ digitChar_ne_dot (n % 10)

theorem digitsVal_append_singleton (l : List Char) (c : Char) :
    digitsVal (l ++ [c]) = 10 * digitsVal l + charVal c := by
  simp [digitsVal, List.foldl_append]

theorem digitsVal_natDigits (n : Nat) : digitsVal (natDigits n) = n := by
  induction n using Nat.strong_induction_on with
  | _ n ih =>
    rw [natDigits]
    split
    · rename_i h
      simp [digitsVal, charVal_digitChar n h]
    · rename_i h
      rw [digitsVal_append_singleton,
          ih (n / 10) (Nat.div_lt_self (by omega) (by omega)),
          charVal_digitChar (n % 10) (Nat.mod_lt n (by omega))]
      omega

theorem digitsVal_pad3 (r : Nat) (h : r < 1000) : digitsVal (pad3 r) = r := by
  simp only [pad3, digitsVal, List.foldl_cons, List.foldl_nil]
  rw [charVal_digitChar (r / 100) (by omega),
      charVal_digitChar (r / 10 % 10) (by omega),
      charVal_digitChar (r % 10) (by omega)]
  omega

theorem splitAtDot_append (a b : List Char) (h : ∀ c ∈ a, c ≠ '.') :
    splitAtDot (a ++ '.' :: b) = (a, b) := by
  induction a with
  | nil => simp [splitAtDot]
  | cons x xs ih =>
    have hx : x ≠ '.' := h x (by simp)
    have ih2 := ih (fun c hc => h c (by simp [hc]))
    simp only [List.cons_append, splitAtDot, if_neg hx]
    rw [show xs.append ('.' :: b) = xs ++ '.' :: b from rfl, ih2]

theorem pyRstrip_fmtMs (m : Nat) :
    (pyRstrip (fmtMs m) 's').data =
      natDigits (m / 1000) ++ '.' :: pad3 (m % 1000) := by
  unfold pyRstrip fmtMs
  show ((((natDigits (m / 1000) ++ '.' :: (pad3 (m % 1000) ++ ['s']))).reverse.dropWhile
      (fun x => x == 's')).reverse) = _
  have hshape : natDigits (m / 1000) ++ '.' :: (pad3 (m % 1000) ++ ['s'])
      = (natDigits (m / 1000) ++ '.' :: pad3 (m % 1000)) ++ ['s'] := by
    simp
  rw [hshape, List.reverse_append]
  show (List.dropWhile (fun x => x == 's')
      ('s' :: (natDigits (m / 1000) ++ '.' :: pad3 (m % 1000)).reverse)).reverse = _
  rw [List.dropWhile_cons_of_pos (by simp)]
  have hrev : (natDigits (m / 1000) ++ '.' :: pad3 (m % 1000)).reverse
      = digitChar (m % 1000 % 10) :: (digitChar (m % 1000 / 10 % 10) ::
          (digitChar (m % 1000 / 100) :: ('.' :: (natDigits (m / 1000)).reverse))) := by
    simp [pad3]
  rw [hrev, List.dropWhile_cons_of_neg (by simp [digitChar_ne_s])]
  rw [← hrev, List.reverse_reverse]

theorem parseTimeS_fmtMs (m : Nat) : parseTimeS (fmtMs m) = (m : ℚ) / 1000 := by
  unfold parseTimeS pyFloatOfChars
  rw [pyRstrip_fmtMs,
      splitAtDot_append (natDigits (m / 1000)) (pad3 (m % 1000)) (natDigits_ne_dot _)]
  show (digitsVal (natDigits (m / 1000)) : ℚ) +
      (digitsVal (pad3 (m % 1000)) : ℚ) / (10 : ℚ) ^ (pad3 (m % 1000)).length =
      (m : ℚ) / 1000
  have hlen : (pad3 (m % 1000)).length = 3 := rfl
  rw [digitsVal_natDigits, digitsVal_pad3 (m % 1000) (Nat.mod_lt m (by omega)), hlen]
  have key : ((1000 * (m / 1000) + m % 1000 : ℕ) : ℚ) = (m : ℚ) := by
    rw [Nat.div_add_mod m 1000]
  push_cast at key
  have h10 : (10 : ℚ) ^ 3 = 1000 := by norm_num
  rw [h10]
  field_simp
  linarith

/-! ### Stage adapter lemmas -/

theorem save_chat_history_ok (env : Env) : save_chat_history env = Except.ok () := by
  unfold save_chat_history json_dump_history
  by_cases h : env.historyDumpOk <;> simp [h]

theorem generate_response_eq (env : Env) (prompt : String) :
    generate_response env prompt = Except.ok (llmReply env) := by
  unfold generate_response pyTryCatch send_message llmReply
  cases hg : env.geminiResult with
  | error e => rfl
  | ok t =>
    cases t with
    | none =>
      simp only [bind, Except.bind, save_chat_history_ok, pure, Except.pure]
    | some s =>
      simp only [bind, Except.bind, save_chat_history_ok, pure, Except.pure]

theorem transcribe_snd_sttdir (env : Env) (fs : FS) (b e : String) (x : String) :
    fsExists (transcribe_speech_to_text env fs b e).2 (env.sttTmpDir, x) = false := by
  unfold transcribe_speech_to_text
  cases h1 : env.whisperBinaryExists with
  | false =>
    simp only [h1, Bool.not_false, if_true]
    exact fsExists_removeDir_self _ _ _ rfl
  | true =>
    cases h2 : env.whisperExitOk with
    | false =>
      simp [h1, h2]
      exact fsExists_removeDir_self _ _ _ rfl
    | true =>
      simp only [h1, h2, Bool.not_true, Bool.false_eq_true, if_false]
      split <;> exact fsExists_removeDir_self _ _ _ rfl

theorem transcribe_snd_read_other (env : Env) (fs : FS) (b e : String)
    (p : FsPath) (h : p.1 ≠ env.sttTmpDir) :
    fsRead (transcribe_speech_to_text env fs b e).2 p = fsRead fs p := by
  have hne1 : (env.sttTmpDir, env.sttUuid ++ e) ≠ p := fun hh => h (by rw [← hh])
  have hne2 : ((env.sttTmpDir, "transcription.txt") : FsPath) ≠ p :=
    fun hh => h (by rw [← hh])
  unfold transcribe_speech_to_text
  cases h1 : env.whisperBinaryExists with
  | false =>
    simp only [h1, Bool.not_false, if_true]
    rw [fsRead_removeDir_ne _ _ _ h, fsRead_write_ne _ _ _ _ hne1]
  | true =>
    cases h2 : env.whisperExitOk with
    | false =>
      simp [h1, h2]
      rw [fsRead_removeDir_ne _ _ _ h, fsRead_write_ne _ _ _ _ hne1]
    | true =>
      simp only [h1, h2, Bool.not_true, Bool.false_eq_true, if_false]
      cases h3 : env.whisperWritesOutput with
      | true =>
        simp only [h3, if_true]
        split <;>
          rw [fsRead_removeDir_ne _ _ _ h, fsRead_write_ne _ _ _ _ hne2,
              fsRead_write_ne _ _ _ _ hne1]
      | false =>
        simp only [h3, Bool.false_eq_true, if_false]
        split <;>
          rw [fsRead_removeDir_ne _ _ _ h, fsRead_write_ne _ _ _ _ hne1]

theorem transcribe_fst_eq (env : Env) (fs : FS) (b e : String)
    (hwb : env.whisperBinaryExists = true)
    (hf1 : fsExists fs (env.sttTmpDir, "transcription.txt") = false)
    (hf2 : env.sttUuid ++ e ≠ "transcription.txt") :
    (transcribe_speech_to_text env fs b e).1 = Except.ok (sttResultStr env) := by
  unfold transcribe_speech_to_text sttResultStr
  by_cases h2 : env.whisperExitOk
  · simp only [hwb, h2, Bool.not_true, if_false, Bool.false_eq_true]
    by_cases h3 : env.whisperWritesOutput
    · simp only [h3, if_true]
      rw [show fsRead
            (fsWrite (fsWrite fs (env.sttTmpDir, env.sttUuid ++ e) b)
              (env.sttTmpDir, "transcription.txt") env.whisperOutput)
            (env.sttTmpDir, "transcription.txt") = some env.whisperOutput from
          fsRead_write_self _ _ _]
    · have hna : (env.sttTmpDir, env.sttUuid ++ e) ≠
          ((env.sttTmpDir, "transcription.txt") : FsPath) := by
        intro hh
        exact hf2 (congrArg Prod.snd hh)
      have : fsRead (fsWrite fs (env.sttTmpDir, env.sttUuid ++ e) b)
          (env.sttTmpDir, "transcription.txt") = none := by
        rw [fsRead_write_ne _ _ _ _ hna]
        simpa [fsExists, Option.isSome_iff_exists] using hf1
      simp only [h3, if_false, Bool.false_eq_true, this]
  · simp [hwb, h2]

theorem missingArtifactDesc_model (fs : FS)
    (h : fsExists fs coquiModelPath = false) :
    missingArtifactDesc fs = some "Model file" := by
  simp [missingArtifactDesc, h]

theorem missingArtifactDesc_congr (fs fs' : FS)
    (h1 : fsExists fs' coquiModelPath = fsExists fs coquiModelPath)
    (h2 : fsExists fs' coquiConfigPath = fsExists fs coquiConfigPath)
    (h3 : fsExists fs' coquiSpeakersPath = fsExists fs coquiSpeakersPath) :
    missingArtifactDesc fs' = missingArtifactDesc fs := by
  simp [missingArtifactDesc, h1, h2, h3]

theorem tts_missing_fallback (env : Env) (fs : FS) (t desc : String)
    (hm : missingArtifactDesc fs = some desc)
    (hs : fsExists fs samplePath = true) :
    tts_with_coqui env fs t =
      (Except.ok (TtsReturn.path (ttsFallbackPath env)),
       fsWrite fs (ttsFallbackPath env) ((fsRead fs samplePath).getD "")) := by
  unfold tts_with_coqui ttsFallback
  rw [hm]
  simp [hs]

theorem tts_missing_nofallback (env : Env) (fs : FS) (t desc : String)
    (hm : missingArtifactDesc fs = some desc)
    (hs : fsExists fs samplePath = false) :
    tts_with_coqui env fs t =
      (Except.ok (TtsReturn.errStr
        ("[ERROR] " ++ desc ++ " not found and no fallback available")), fs) := by
  unfold tts_with_coqui ttsFallback
  rw [hm]
  simp [hs]

theorem tts_ok_run (env : Env) (fs : FS) (t : String)
    (hm : missingArtifactDesc fs = none)
    (hb : env.ttsBinaryExists = true)
    (he : env.ttsExitOk = true)
    (hw : env.ttsWritesOutput = true) :
    tts_with_coqui env fs t =
      (Except.ok (TtsReturn.path (ttsOutputPath env)),
       fsWrite fs (ttsOutputPath env) env.ttsOutputBytes) := by
  unfold tts_with_coqui
  rw [hm]
  simp [hb, he, hw, fsExists_write_self]

theorem tts_snd_read_other (env : Env) (fs : FS) (t : String)
    (p : FsPath) (h : p.1 ≠ SHARED_TMP) :
    fsRead (tts_with_coqui env fs t).2 p = fsRead fs p := by
  have hne1 : ttsOutputPath env ≠ p := fun hh => h (by rw [← hh]; rfl)
  have hne2 : ttsFallbackPath env ≠ p := fun hh => h (by rw [← hh]; rfl)
  unfold tts_with_coqui ttsFallback
  cases hm : missingArtifactDesc fs with
  | some desc =>
    cases hs : fsExists fs samplePath with
    | true =>
      simp only [hs, if_true]
      rw [fsRead_write_ne _ _ _ _ hne2]
    | false =>
      simp only [hs, Bool.false_eq_true, if_false]
  | none =>
    cases hb : env.ttsBinaryExists with
    | false => simp [hb]
    | true =>
      cases he : env.ttsExitOk with
      | false =>
        simp only [hb, he, Bool.not_true, Bool.false_eq_true, if_false]
        cases hs : fsExists fs samplePath with
        | true =>
          simp only [hs, if_true]
          rw [fsRead_write_ne _ _ _ _ hne2]
        | false =>
          simp only [hs, Bool.false_eq_true, if_false]
      | true =>
        simp only [hb, he, Bool.not_true, Bool.false_eq_true, if_false, if_true]
        cases hw : env.ttsWritesOutput with
        | true =>
          simp only [hw, if_true]
          split
          · rw [fsRead_write_ne _ _ _ _ hne1]
          · cases hs : fsExists (fsWrite fs (ttsOutputPath env) env.ttsOutputBytes)
                samplePath with
            | true =>
              simp only [hs, if_true]
              rw [fsRead_write_ne _ _ _ _ hne2, fsRead_write_ne _ _ _ _ hne1]
            | false =>
              simp only [hs, Bool.false_eq_true, if_false]
              rw [fsRead_write_ne _ _ _ _ hne1]
        | false =>
          simp only [hw, Bool.false_eq_true, if_false]
          split
          · rfl
          · cases hs : fsExists fs samplePath with
            | true =>
              simp only [hs, if_true]
              rw [fsRead_write_ne _ _ _ _ hne2]
            | false =>
              simp only [hs, Bool.false_eq_true, if_false]

theorem fsExists_cleanup_mono (tf : List TtsReturn) (fs : FS) (p : FsPath)
    (h : fsExists (cleanup_temp_files tf fs) p = true) :
    fsExists fs p = true := by
  induction tf generalizing fs with
  | nil => exact h
  | cons t ts ih =>
    cases t with
    | errStr s => exact ih _ h
    | path q =>
      have h2 := ih _ h
      by_cases hq : fsExists fs q = true
      · rw [show cleanup_temp_files (TtsReturn.path q :: ts) fs
            = cleanup_temp_files ts (fsRemove fs q) from by
              simp [cleanup_temp_files, List.foldl_cons, hq]] at h
        have h3 := ih _ h
        exact fsExists_of_fsExists_filter fs _ p h3
      · rw [show cleanup_temp_files (TtsReturn.path q :: ts) fs
            = cleanup_temp_files ts fs from by
              simp [cleanup_temp_files, List.foldl_cons, hq]] at h
        exact ih _ h

theorem fsExists_cleanup_of_mem (tf : List TtsReturn) (fs : FS) (p : FsPath)
    (h : TtsReturn.path p ∈ tf) :
    fsExists (cleanup_temp_files tf fs) p = false := by
  induction tf generalizing fs with
  | nil => cases h
  | cons t ts ih =>
    rcases List.mem_cons.mp h with hh | hh
    · by_cases hmem : TtsReturn.path p ∈ ts
      · exact ih _ hmem
      · subst hh
        by_cases hq : fsExists fs p = true
        · rw [show cleanup_temp_files (TtsReturn.path p :: ts) fs
              = cleanup_temp_files ts (fsRemove fs p) from by
                simp [cleanup_temp_files, List.foldl_cons, hq]]
          cases hres : fsExists (cleanup_temp_files ts (fsRemove fs p)) p with
          | false => rfl
          | true =>
            have := fsExists_cleanup_mono ts _ p hres
            rw [fsExists_remove_self] at this
            cases this
        · rw [show cleanup_temp_files (TtsReturn.path p :: ts) fs
              = cleanup_temp_files ts fs from by
                simp [cleanup_temp_files, List.foldl_cons, hq]]
          cases hres : fsExists (cleanup_temp_files ts fs) p with
          | false => rfl
          | true =>
            have := fsExists_cleanup_mono ts fs p hres
            rw [this] at hq
            cases hq rfl
    · cases t with
      | errStr s => exact ih _ hh
      | path q =>
        by_cases hq : fsExists fs q = true
        · rw [show cleanup_temp_files (TtsReturn.path q :: ts) fs
              = cleanup_temp_files ts (fsRemove fs q) from by
                simp [cleanup_temp_files, List.foldl_cons, hq]]
          exact ih _ hh
        · rw [show cleanup_temp_files (TtsReturn.path q :: ts) fs
              = cleanup_temp_files ts fs from by
                simp [cleanup_temp_files, List.foldl_cons, hq]]
          exact ih _ hh

/-! ### Claim theorems -/

/-- C8: for every input prompt, `generate_response` never propagates an
exception: it always returns a string; any error raised by the Gemini
collaborator is caught and returned as the sentinel string
`"[ERROR] " ++ str(e)`; and a failure while persisting the chat history
does not change the result of the request. -/
theorem c8_generate_response_never_raises (env : Env) (prompt : String) :
    (∃ s, generate_response env prompt = Except.ok s)
    ∧ (∀ e, env.geminiResult = Except.error e →
        generate_response env prompt = Except.ok ("[ERROR] " ++ e))
    ∧ generate_response { env with historyDumpOk := false } prompt
        = generate_response { env with historyDumpOk := true } prompt := by
  refine ⟨⟨llmReply env, generate_response_eq env prompt⟩, ?_, ?_⟩
  · intro e he
    rw [generate_response_eq env prompt]
    unfold llmReply
    rw [he]
  · rw [generate_response_eq, generate_response_eq]
    unfold llmReply
    rfl

/-- C8 witness: a concrete Gemini exception is returned as a sentinel
string rather than propagated. -/
theorem c8_witness :
    generate_response envGeminiRaise "halo" =
      Except.ok ("[ERROR] " ++ "quota exceeded") :=
  (c8_generate_response_never_raises envGeminiRaise "halo").2.1
    "quota exceeded" rfl

/-- C9: whatever the Transcriber returns, the handler passes
`user_text.strip()` — the trimmed transcript — to `generate_response`. -/
theorem c9_responder_receives_trimmed_transcript (env : Env) (fs0 : FS)
    (n c : String) :
    (voice_chat env fs0 n c).promptToLlm
      = ((voice_chat env fs0 n c).sttTranscript).map pyStrip := by
  simp only [voice_chat]
  split
  · rfl
  · split
    · rfl
    · split
      · rfl
      · split
        · simp
        · split
          · simp
          · simp

/-- C10: the handler lower-cases the upload's extension before the
allow-list check, so two filenames whose extensions agree after
lower-casing are processed identically, and a filename whose
lower-cased extension is allowed is never rejected with 400. -/
theorem c10_extension_lowercased (env : Env) (fs0 : FS) (n1 n2 c : String)
    (h : fileExtOf n1 = fileExtOf n2) :
    voice_chat env fs0 n1 c = voice_chat env fs0 n2 c
    ∧ (fileExtOf n1 ∈ ALLOWED_AUDIO_EXTENSIONS →
        (voice_chat env fs0 n1 c).result.statusCode ≠ 400) := by
  constructor
  · simp only [voice_chat]
    rw [h]
  · intro hext
    simp only [voice_chat]
    rw [if_neg (by simp [hext])]
    split
    · simp [HttpResult.statusCode]
    · split
      · simp [HttpResult.statusCode]
      · split
        · simp [HttpResult.statusCode]
        · split
          · simp [HttpResult.statusCode]
          · simp [HttpResult.statusCode]

/-- C10 witness: `voice.WAV` is handled exactly as `voice.wav`, and is
accepted. -/
theorem c10_witness :
    voice_chat envDefault fsAllArtifacts "voice.WAV" "AUDIO"
        = voice_chat envDefault fsAllArtifacts "voice.wav" "AUDIO"
    ∧ (voice_chat envDefault fsAllArtifacts "voice.WAV" "AUDIO").result.statusCode
        ≠ 400 := by
  have h := c10_extension_lowercased envDefault fsAllArtifacts
    "voice.WAV" "voice.wav" "AUDIO" (by decide)
  exact ⟨h.1, h.2 (by decide)⟩

/-- C5: an upload whose (lower-cased) extension is outside the
allow-list is rejected with HTTP 400 and a message naming the allowed
set, before anything happens: the filesystem is untouched, no stage
runs, no timing entry is recorded, and nothing is tracked for cleanup. -/
theorem c5_validation_short_circuits (env : Env) (fs0 : FS) (n c : String)
    (hext : fileExtOf n ∉ ALLOWED_AUDIO_EXTENSIONS) :
    (voice_chat env fs0 n c).result
        = HttpResult.httpError 400 unsupportedFormatDetail
    ∧ unsupportedFormatDetail
        = "Unsupported audio format. Allowed formats: .wav, .mp3, .ogg, .m4a"
    ∧ (voice_chat env fs0 n c).fs = fs0
    ∧ (voice_chat env fs0 n c).stagesRun = []
    ∧ (voice_chat env fs0 n c).timings = []
    ∧ (voice_chat env fs0 n c).tempFiles = [] := by
  simp only [voice_chat]
  rw [if_pos hext]
  exact ⟨rfl, by decide, rfl, rfl, rfl, rfl⟩

/-- C5 witness: the concrete disallowed upload `clip.txt` is rejected
with 400 and empty timings. -/
theorem c5_witness :
    (voice_chat envDefault fsAllArtifacts "clip.txt" "AUDIO").result
        = HttpResult.httpError 400 unsupportedFormatDetail
    ∧ (voice_chat envDefault fsAllArtifacts "clip.txt" "AUDIO").timings = [] := by
  have h := c5_validation_short_circuits envDefault fsAllArtifacts
    "clip.txt" "AUDIO" (by decide)
  exact ⟨h.1, h.2.2.2.2.1⟩

/-- C6: the keys of `process_times` always form a prefix of the pipeline
sequence `save_audio, speech_to_text, llm_response, text_to_speech`,
every key belongs to a stage that actually started executing, and a
validation rejection leaves `process_times` empty. -/
theorem c6_timings_prefix_of_pipeline (env : Env) (fs0 : FS) (n c : String) :
    (((voice_chat env fs0 n c).timings.map Prod.fst).isPrefixOf
        ["save_audio", "speech_to_text", "llm_response", "text_to_speech"]) = true
    ∧ (∀ k ∈ (voice_chat env fs0 n c).timings.map Prod.fst,
        k ∈ (voice_chat env fs0 n c).stagesRun)
    ∧ (fileExtOf n ∉ ALLOWED_AUDIO_EXTENSIONS →
        (voice_chat env fs0 n c).timings = []) := by
  simp only [voice_chat]
  split
  · exact ⟨by simp [List.isPrefixOf], by simp, fun _ => rfl⟩
  · rename_i hvalid
    split
    · exact ⟨by simp [List.isPrefixOf], by simp, fun hc => absurd hc hvalid⟩
    · split
      · refine ⟨by simp [List.isPrefixOf], ?_, fun hc => absurd hc hvalid⟩
        simp
      · split
        · refine ⟨by simp [List.isPrefixOf], ?_, fun hc => absurd hc hvalid⟩
          simp
        · split
          · refine ⟨by simp [List.isPrefixOf], ?_, fun hc => absurd hc hvalid⟩
            simp
          · refine ⟨by simp [List.isPrefixOf], ?_, fun hc => absurd hc hvalid⟩
            simp

/-- C6 witness: on a successful run the timing keys are the full
pipeline prefix, and a rejected upload records no timings. -/
theorem c6_witness :
    ((voice_chat envDefault fsAllArtifacts "a.wav" "AUDIO").timings.map
        Prod.fst).isPrefixOf
      ["save_audio", "speech_to_text", "llm_response", "text_to_speech"] = true
    ∧ (voice_chat envDefault fsAllArtifacts "clip.txt" "AUDIO").timings = [] := by
  exact ⟨(c6_timings_prefix_of_pipeline envDefault fsAllArtifacts "a.wav" "AUDIO").1,
    (c6_timings_prefix_of_pipeline envDefault fsAllArtifacts "clip.txt" "AUDIO").2.2
      (by decide)⟩

/-- C7: on every successful request (HTTP 200), `total_process_time`
equals the sum of the four per-stage values recorded in
`process_times` — exactly, since each stored string `"x.yyys"` is parsed
back to the rounded per-stage duration it denotes. -/
theorem c7_total_is_sum_of_recorded_timings (env : Env) (fs0 : FS)
    (n c : String)
    (h200 : (voice_chat env fs0 n c).result.statusCode = 200) :
    (voice_chat env fs0 n c).result.totalOf
        = some (((env.tSave + env.tStt + env.tLlm + env.tTts : ℕ) : ℚ) / 1000)
    ∧ (voice_chat env fs0 n c).result.timesOf
        = [("save_audio", fmtMs env.tSave), ("speech_to_text", fmtMs env.tStt),
           ("llm_response", fmtMs env.tLlm), ("text_to_speech", fmtMs env.tTts)] := by
  revert h200
  simp only [voice_chat]
  split
  · intro h200
    simp [HttpResult.statusCode] at h200
  · split
    · intro h200
      simp [HttpResult.statusCode] at h200
    · split
      · intro h200
        simp [HttpResult.statusCode] at h200
      · split
        · intro h200
          simp [HttpResult.statusCode] at h200
        · split
          · intro h200
            simp [HttpResult.statusCode] at h200
          · intro _
            constructor
            · show some _ = some _
              congr 1
              simp only [List.cons_append, List.nil_append, List.map_cons,
                List.map_nil, List.sum_cons, List.sum_nil, parseTimeS_fmtMs]
              push_cast
              ring
            · simp [HttpResult.timesOf]

/-- C7 witness: a concrete successful request whose total equals the
sum of its four stage durations. -/
theorem c7_witness :
    (voice_chat envDefault fsAllArtifacts "a.wav" "AUDIO").result.totalOf
        = some (((envDefault.tSave + envDefault.tStt + envDefault.tLlm
            + envDefault.tTts : ℕ) : ℚ) / 1000) :=
  (c7_total_is_sum_of_recorded_timings envDefault fsAllArtifacts "a.wav" "AUDIO"
    (by decide)).1

theorem transcribe_snd_exists_other (env : Env) (fs : FS) (b e : String)
    (p : FsPath) (h : p.1 ≠ env.sttTmpDir) :
    fsExists (transcribe_speech_to_text env fs b e).2 p = fsExists fs p :=
  congrArg Option.isSome (transcribe_snd_read_other env fs b e p h)

theorem tts_snd_exists_other (env : Env) (fs : FS) (t : String)
    (p : FsPath) (h : p.1 ≠ SHARED_TMP) :
    fsExists (tts_with_coqui env fs t).2 p = fsExists fs p :=
  congrArg Option.isSome (tts_snd_read_other env fs t p h)

theorem transcribe_fst_isOk (env : Env) (fs : FS) (b e : String)
    (hwb : env.whisperBinaryExists = true) :
    ∃ t, (transcribe_speech_to_text env fs b e).1 = Except.ok t := by
  unfold transcribe_speech_to_text
  cases h2 : env.whisperExitOk with
  | false => exact ⟨"[ERROR] Whisper failed: " ++ env.whisperErr, by simp [hwb, h2]⟩
  | true =>
    simp only [hwb, h2, Bool.not_true, Bool.false_eq_true, if_false]
    split
    · rename_i content hread
      exact ⟨content, rfl⟩
    · exact ⟨"[ERROR] Transcription file not found", rfl⟩

/-- C2 counterexample: with the transcription process exiting non-zero
(and everything else healthy), the request is NOT answered with HTTP
500 — it completes with status 200, all four stages run, and the LLM
receives the sentinel string as its prompt. -/
theorem c2_counterexample :
    (voice_chat envWhisperFail fsAllArtifacts "a.wav" "AUDIO").result.statusCode = 200
    ∧ (voice_chat envWhisperFail fsAllArtifacts "a.wav" "AUDIO").stagesRun
        = ["save_audio", "speech_to_text", "llm_response", "text_to_speech"]
    ∧ (voice_chat envWhisperFail fsAllArtifacts "a.wav" "AUDIO").promptToLlm
        = some "[ERROR] Whisper failed: boom" :=
  ⟨by decide, by decide, by decide⟩

/-- C2 amended: when the whisper binary exists but the external process
exits non-zero, or exits zero without producing the output file, the
Transcriber stage does not raise: it returns a `"[ERROR] ..."` sentinel
string which the Orchestrator treats as the transcript — the remaining
stages all run on the sentinel text and no HTTP 500 is produced for
this condition (the transcription is invoked once and never retried). -/
theorem c2_amended_stt_failure_becomes_sentinel_transcript (env : Env)
    (fs0 : FS) (n c : String)
    (hext : fileExtOf n ∈ ALLOWED_AUDIO_EXTENSIONS)
    (hsave : env.saveOk = true)
    (hwb : env.whisperBinaryExists = true)
    (hfr1 : fsExists fs0 (env.sttTmpDir, "transcription.txt") = false)
    (hfr2 : env.sttUuid ++ fileExtOf n ≠ "transcription.txt")
    (hfr3 : ((env.reqTmpDir, env.reqUuid ++ fileExtOf n) : FsPath)
        ≠ (env.sttTmpDir, "transcription.txt")) :
    (voice_chat env fs0 n c).sttTranscript = some (sttResultStr env)
    ∧ (voice_chat env fs0 n c).promptToLlm = some (pyStrip (sttResultStr env))
    ∧ (voice_chat env fs0 n c).stagesRun
        = ["save_audio", "speech_to_text", "llm_response", "text_to_speech"]
    ∧ (env.whisperExitOk = false →
        sttResultStr env = "[ERROR] Whisper failed: " ++ env.whisperErr)
    ∧ (env.whisperExitOk = true → env.whisperWritesOutput = false →
        sttResultStr env = "[ERROR] Transcription file not found") := by
  have hcond : fsExists (fsWrite fs0 (env.reqTmpDir, env.reqUuid ++ fileExtOf n) c)
      (env.sttTmpDir, "transcription.txt") = false := by
    rw [fsExists_write_ne _ _ _ _ hfr3]
    exact hfr1
  simp only [voice_chat]
  rw [if_neg (by simp [hext]), if_neg (by simp [hsave])]
  split
  · rename_i e fs2 heq
    obtain ⟨t, ht⟩ := transcribe_fst_isOk env
      (fsWrite fs0 (env.reqTmpDir, env.reqUuid ++ fileExtOf n) c)
      ((fsRead (fsWrite fs0 (env.reqTmpDir, env.reqUuid ++ fileExtOf n) c)
        (env.reqTmpDir, env.reqUuid ++ fileExtOf n)).getD "")
      (fileExtOf n) hwb
    rw [heq] at ht
    cases ht
  · rename_i user_text fs2 heq
    have h5 := congrArg Prod.fst heq
    rw [transcribe_fst_eq env
        (fsWrite fs0 (env.reqTmpDir, env.reqUuid ++ fileExtOf n) c)
        ((fsRead (fsWrite fs0 (env.reqTmpDir, env.reqUuid ++ fileExtOf n) c)
          (env.reqTmpDir, env.reqUuid ++ fileExtOf n)).getD "")
        (fileExtOf n) hwb hcond hfr2] at h5
    have h6 : sttResultStr env = user_text := by
      have h7 : Except.ok (sttResultStr env) = Except.ok user_text := h5
      injection h7
    subst h6
    split
    · rename_i e heq2
      rw [generate_response_eq] at heq2
      cases heq2
    · rename_i ai heq2
      split
      · refine ⟨rfl, rfl, rfl, fun hx => ?_, fun hx hw => ?_⟩
        · simp [sttResultStr, hx]
        · simp [sttResultStr, hx, hw]
      · refine ⟨rfl, rfl, rfl, fun hx => ?_, fun hx hw => ?_⟩
        · simp [sttResultStr, hx]
        · simp [sttResultStr, hx, hw]

/-- C2 witness: concrete instantiation of the amended claim at a
request whose whisper process exits non-zero. -/
theorem c2_witness :
    (voice_chat envWhisperFail fsAllArtifacts "a.wav" "AUDIO").sttTranscript
        = some (sttResultStr envWhisperFail)
    ∧ sttResultStr envWhisperFail = "[ERROR] Whisper failed: " ++ "boom" := by
  have h := c2_amended_stt_failure_becomes_sentinel_transcript envWhisperFail
    fsAllArtifacts "a.wav" "AUDIO" (by decide) rfl rfl (by decide) (by decide)
    (by decide)
  exact ⟨h.1, h.2.2.2.1 rfl⟩

/-- C3 counterexample: with all Coqui artifacts and the fallback sample
absent, the Synthesizer does NOT fail the request with an HTTP 500
naming the text-to-speech stage — the handler completes with status
200, using the sentinel error string as the response file path. -/
theorem c3_counterexample :
    (voice_chat envDefault [] "a.wav" "AUDIO").result.statusCode = 200
    ∧ (voice_chat envDefault [] "a.wav" "AUDIO").result.responsePath
        = some (TtsReturn.errStr
            "[ERROR] Model file not found and no fallback available") :=
  ⟨by decide, by decide⟩

/-- C3 amended: when the model file and the fallback sample are both
absent, `_tts_with_coqui` returns the sentinel string
`"[ERROR] Model file not found and no fallback available"` instead of
raising; the handler treats it as a path and returns a 200
`FileResponse` on it — no HTTP 500 naming the text-to-speech stage is
produced by the handler. -/
theorem c3_amended_tts_total_failure_is_sentinel_path (env : Env)
    (fs0 : FS) (n c : String)
    (hext : fileExtOf n ∈ ALLOWED_AUDIO_EXTENSIONS)
    (hsave : env.saveOk = true)
    (hwb : env.whisperBinaryExists = true)
    (hmodel : fsExists fs0 coquiModelPath = false)
    (hsmiss : fsExists fs0 samplePath = false)
    (hd1 : env.reqTmpDir ≠ COQUI_DIR)
    (hd2 : env.sttTmpDir ≠ COQUI_DIR) :
    (voice_chat env fs0 n c).result.responsePath
        = some (TtsReturn.errStr
            "[ERROR] Model file not found and no fallback available")
    ∧ (voice_chat env fs0 n c).result.statusCode = 200 := by
  simp only [voice_chat]
  rw [if_neg (by simp [hext]), if_neg (by simp [hsave])]
  split
  · rename_i e fs2 heq
    obtain ⟨t, ht⟩ := transcribe_fst_isOk env
      (fsWrite fs0 (env.reqTmpDir, env.reqUuid ++ fileExtOf n) c)
      ((fsRead (fsWrite fs0 (env.reqTmpDir, env.reqUuid ++ fileExtOf n) c)
        (env.reqTmpDir, env.reqUuid ++ fileExtOf n)).getD "")
      (fileExtOf n) hwb
    rw [heq] at ht
    cases ht
  · rename_i user_text fs2 heq
    have hcm : fsExists fs2 coquiModelPath = false := by
      have hpre := transcribe_snd_exists_other env
        (fsWrite fs0 (env.reqTmpDir, env.reqUuid ++ fileExtOf n) c)
        ((fsRead (fsWrite fs0 (env.reqTmpDir, env.reqUuid ++ fileExtOf n) c)
          (env.reqTmpDir, env.reqUuid ++ fileExtOf n)).getD "")
        (fileExtOf n) coquiModelPath (fun hh => hd2 hh.symm)
      rw [heq] at hpre
      calc fsExists fs2 coquiModelPath
          = fsExists (fsWrite fs0 (env.reqTmpDir, env.reqUuid ++ fileExtOf n) c)
              coquiModelPath := hpre
        _ = fsExists fs0 coquiModelPath :=
            fsExists_write_ne _ _ _ _ (fun hh => hd1 (congrArg Prod.fst hh))
        _ = false := hmodel
    have hsm : fsExists fs2 samplePath = false := by
      have hpre := transcribe_snd_exists_other env
        (fsWrite fs0 (env.reqTmpDir, env.reqUuid ++ fileExtOf n) c)
        ((fsRead (fsWrite fs0 (env.reqTmpDir, env.reqUuid ++ fileExtOf n) c)
          (env.reqTmpDir, env.reqUuid ++ fileExtOf n)).getD "")
        (fileExtOf n) samplePath (fun hh => hd2 hh.symm)
      rw [heq] at hpre
      calc fsExists fs2 samplePath
          = fsExists (fsWrite fs0 (env.reqTmpDir, env.reqUuid ++ fileExtOf n) c)
              samplePath := hpre
        _ = fsExists fs0 samplePath :=
            fsExists_write_ne _ _ _ _ (fun hh => hd1 (congrArg Prod.fst hh))
        _ = false := hsmiss
    split
    · rename_i e heq2
      rw [generate_response_eq] at heq2
      cases heq2
    · rename_i ai heq2
      have httseq : transcribe_text_to_speech env fs2 ai =
          (Except.ok (TtsReturn.errStr
            ("[ERROR] " ++ "Model file" ++ " not found and no fallback available")),
           fs2) := by
        unfold transcribe_text_to_speech
        exact tts_missing_nofallback env fs2 ai "Model file"
          (missingArtifactDesc_model fs2 hcm) hsm
      split
      · rename_i e fs3 heq3
        rw [httseq] at heq3
        have := congrArg Prod.fst heq3
        simp at this
      · rename_i audio_output_path fs3 heq3
        rw [httseq] at heq3
        have hpath := congrArg Prod.fst heq3
        have hpath2 : Except.ok (TtsReturn.errStr
            ("[ERROR] " ++ "Model file" ++ " not found and no fallback available"))
            = Except.ok audio_output_path := hpath
        have hpath3 : TtsReturn.errStr
            ("[ERROR] " ++ "Model file" ++ " not found and no fallback available")
            = audio_output_path := by injection hpath2
        rw [← hpath3]
        exact ⟨rfl, rfl⟩

/-- C3 witness: concrete instantiation of the amended claim with the
model files and the fallback sample all absent. -/
theorem c3_witness :
    (voice_chat envDefault [] "a.wav" "AUDIO").result.responsePath
        = some (TtsReturn.errStr
            "[ERROR] Model file not found and no fallback available") :=
  (c3_amended_tts_total_failure_is_sentinel_path envDefault [] "a.wav" "AUDIO"
    (by decide) rfl rfl rfl rfl (by decide) (by decide)).1

/-- C4: if some Coqui model artifact is absent but the pre-recorded
fallback sample exists (and is non-empty), a validated request that
reaches the Synthesizer completes with HTTP 200: the Synthesizer
returns a fresh copy of the sample, whose bytes are the response body —
never a hard failure. -/
theorem c4_fallback_copy_of_sample (env : Env) (fs0 : FS) (n c s : String)
    (hext : fileExtOf n ∈ ALLOWED_AUDIO_EXTENSIONS)
    (hsave : env.saveOk = true)
    (hwb : env.whisperBinaryExists = true)
    (hmiss : missingArtifactDesc fs0 ≠ none)
    (hsample : fsRead fs0 samplePath = some s)
    (hs : s ≠ "")
    (hd1 : env.reqTmpDir ≠ COQUI_DIR)
    (hd2 : env.sttTmpDir ≠ COQUI_DIR)
    (hd3 : env.reqTmpDir ≠ SHARED_TMP) :
    (voice_chat env fs0 n c).result.responsePath
        = some (TtsReturn.path (ttsFallbackPath env))
    ∧ (voice_chat env fs0 n c).result.statusCode = 200
    ∧ fsRead (voice_chat env fs0 n c).fs (ttsFallbackPath env) = some s
    ∧ s ≠ "" := by
  simp only [voice_chat]
  rw [if_neg (by simp [hext]), if_neg (by simp [hsave])]
  split
  · rename_i e fs2 heq
    obtain ⟨t, ht⟩ := transcribe_fst_isOk env
      (fsWrite fs0 (env.reqTmpDir, env.reqUuid ++ fileExtOf n) c)
      ((fsRead (fsWrite fs0 (env.reqTmpDir, env.reqUuid ++ fileExtOf n) c)
        (env.reqTmpDir, env.reqUuid ++ fileExtOf n)).getD "")
      (fileExtOf n) hwb
    rw [heq] at ht
    cases ht
  · rename_i user_text fs2 heq
    have hgen : ∀ q : FsPath, q.1 = COQUI_DIR → fsRead fs2 q = fsRead fs0 q := by
      intro q hq
      have hpre := transcribe_snd_read_other env
        (fsWrite fs0 (env.reqTmpDir, env.reqUuid ++ fileExtOf n) c)
        ((fsRead (fsWrite fs0 (env.reqTmpDir, env.reqUuid ++ fileExtOf n) c)
          (env.reqTmpDir, env.reqUuid ++ fileExtOf n)).getD "")
        (fileExtOf n) q (by rw [hq]; exact fun hh => hd2 hh.symm)
      rw [heq] at hpre
      calc fsRead fs2 q
          = fsRead (fsWrite fs0 (env.reqTmpDir, env.reqUuid ++ fileExtOf n) c) q :=
            hpre
        _ = fsRead fs0 q := fsRead_write_ne _ _ _ _
            (fun hh => hd1 (by rw [← hq]; exact congrArg Prod.fst hh))
    have hdesc2 : missingArtifactDesc fs2 = missingArtifactDesc fs0 :=
      missingArtifactDesc_congr fs0 fs2
        (congrArg Option.isSome (hgen coquiModelPath rfl))
        (congrArg Option.isSome (hgen coquiConfigPath rfl))
        (congrArg Option.isSome (hgen coquiSpeakersPath rfl))
    have hread2 : fsRead fs2 samplePath = some s := by
      rw [hgen samplePath rfl]
      exact hsample
    have hex2 : fsExists fs2 samplePath = true := by
      simp [fsExists, hread2]
    obtain ⟨desc, hdesc⟩ : ∃ d, missingArtifactDesc fs0 = some d := by
      cases hmm : missingArtifactDesc fs0 with
      | none => exact absurd hmm hmiss
      | some d => exact ⟨d, rfl⟩
    split
    · rename_i e heq2
      rw [generate_response_eq] at heq2
      cases heq2
    · rename_i ai heq2
      have httseq : transcribe_text_to_speech env fs2 ai =
          (Except.ok (TtsReturn.path (ttsFallbackPath env)),
           fsWrite fs2 (ttsFallbackPath env) ((fsRead fs2 samplePath).getD "")) := by
        unfold transcribe_text_to_speech
        exact tts_missing_fallback env fs2 ai desc (by rw [hdesc2]; exact hdesc) hex2
      split
      · rename_i e fs3 heq3
        rw [httseq] at heq3
        have := congrArg Prod.fst heq3
        simp at this
      · rename_i audio_output_path fs3 heq3
        rw [httseq] at heq3
        have hpath : TtsReturn.path (ttsFallbackPath env) = audio_output_path := by
          have h1 : Except.ok (TtsReturn.path (ttsFallbackPath env))
              = Except.ok audio_output_path := congrArg Prod.fst heq3
          injection h1
        have hfs3 : fsWrite fs2 (ttsFallbackPath env)
            ((fsRead fs2 samplePath).getD "") = fs3 := congrArg Prod.snd heq3
        rw [← hpath]
        refine ⟨rfl, rfl, ?_, hs⟩
        show fsRead (fsRemoveDir fs3 env.reqTmpDir) (ttsFallbackPath env) = some s
        rw [← hfs3,
            fsRead_removeDir_ne _ _ _ (fun hh => hd3 hh.symm),
            fsRead_write_self, hread2]
        rfl

/-- C4 witness: concrete request with the model artifacts absent but the
sample present: 200, fallback path, body equal to the sample bytes. -/
theorem c4_witness :
    (voice_chat envDefault fsSampleOnly "a.wav" "AUDIO").result.responsePath
        = some (TtsReturn.path (ttsFallbackPath envDefault))
    ∧ fsRead (voice_chat envDefault fsSampleOnly "a.wav" "AUDIO").fs
        (ttsFallbackPath envDefault) = some "sample-bytes" := by
  have h := c4_fallback_copy_of_sample envDefault fsSampleOnly "a.wav" "AUDIO"
    "sample-bytes" (by decide) rfl rfl (by decide) (by decide) (by decide)
    (by decide) (by decide) (by decide)
  exact ⟨h.1, h.2.2.1⟩

/-- C1 counterexample: on a fully successful request the synthesized
audio file written to the shared temp area still exists after the
handler returns (and hence after response delivery, which deletes
nothing) — an artifact created during the request survives past
response delivery, and is merely tracked in `TEMP_FILES`. -/
theorem c1_counterexample :
    fsExists (voice_chat envDefault fsAllArtifacts "a.wav" "AUDIO").fs
        (ttsOutputPath envDefault) = true
    ∧ (voice_chat envDefault fsAllArtifacts "a.wav" "AUDIO").result.statusCode
        = 200
    ∧ (voice_chat envDefault fsAllArtifacts "a.wav" "AUDIO").tempFiles
        = [TtsReturn.path (ttsOutputPath envDefault)] :=
  ⟨by decide, by decide, by decide⟩

/-- C1 amended: the per-request scratch directories (the handler's
upload scratch and the Transcriber's scratch) are empty after the
handler returns, on every path; but the synthesized audio file is not
deleted at response delivery — any returned audio path is instead
appended to `TEMP_FILES`, and every tracked path is deleted only by the
shutdown hook `cleanup_temp_files`. -/
theorem c1_amended_scratch_cleared_tts_artifact_deferred (env : Env)
    (fs0 : FS) (n c x : String) (p : FsPath)
    (hstt : env.sttTmpDir ≠ SHARED_TMP)
    (h0 : fsExists fs0 (env.reqTmpDir, x) = false)
    (h1 : fsExists fs0 (env.sttTmpDir, x) = false) :
    fsExists (voice_chat env fs0 n c).fs (env.reqTmpDir, x) = false
    ∧ fsExists (voice_chat env fs0 n c).fs (env.sttTmpDir, x) = false
    ∧ (∀ d, (voice_chat env fs0 n c).result
          = HttpResult.fileResponse (TtsReturn.path p) d →
        TtsReturn.path p ∈ (voice_chat env fs0 n c).tempFiles)
    ∧ (TtsReturn.path p ∈ (voice_chat env fs0 n c).tempFiles →
        fsExists (cleanup_temp_files (voice_chat env fs0 n c).tempFiles
          (voice_chat env fs0 n c).fs) p = false) := by
  refine ⟨?_, ?_, ?_, fun mem => fsExists_cleanup_of_mem _ _ _ mem⟩
  · simp only [voice_chat]
    split
    · exact h0
    · split
      · exact fsExists_removeDir_self _ _ _ rfl
      · split
        · exact fsExists_removeDir_self _ _ _ rfl
        · split
          · exact fsExists_removeDir_self _ _ _ rfl
          · split
            · exact fsExists_removeDir_self _ _ _ rfl
            · exact fsExists_removeDir_self _ _ _ rfl
  · simp only [voice_chat]
    split
    · exact h1
    · split
      · by_cases hre : env.sttTmpDir = env.reqTmpDir
        · exact fsExists_removeDir_self _ _ _ hre
        · rw [fsExists_removeDir_ne _ _ _ hre]
          exact h1
      · split
        · rename_i e fs2 heq
          by_cases hre : env.sttTmpDir = env.reqTmpDir
          · exact fsExists_removeDir_self _ _ _ hre
          · rw [fsExists_removeDir_ne _ _ _ hre]
            have hstt2 := transcribe_snd_sttdir env
              (fsWrite fs0 (env.reqTmpDir, env.reqUuid ++ fileExtOf n) c)
              ((fsRead (fsWrite fs0 (env.reqTmpDir, env.reqUuid ++ fileExtOf n) c)
                (env.reqTmpDir, env.reqUuid ++ fileExtOf n)).getD "")
              (fileExtOf n) x
            rw [heq] at hstt2
            exact hstt2
        · rename_i user_text fs2 heq
          have hstt2 := transcribe_snd_sttdir env
            (fsWrite fs0 (env.reqTmpDir, env.reqUuid ++ fileExtOf n) c)
            ((fsRead (fsWrite fs0 (env.reqTmpDir, env.reqUuid ++ fileExtOf n) c)
              (env.reqTmpDir, env.reqUuid ++ fileExtOf n)).getD "")
            (fileExtOf n) x
          rw [heq] at hstt2
          split
          · by_cases hre : env.sttTmpDir = env.reqTmpDir
            · exact fsExists_removeDir_self _ _ _ hre
            · rw [fsExists_removeDir_ne _ _ _ hre]
              exact hstt2
          · rename_i ai heq2
            split
            · rename_i e fs3 heq3
              by_cases hre : env.sttTmpDir = env.reqTmpDir
              · exact fsExists_removeDir_self _ _ _ hre
              · rw [fsExists_removeDir_ne _ _ _ hre]
                have h5 : fsExists (transcribe_text_to_speech env fs2 ai).2
                    (env.sttTmpDir, x) = fsExists fs2 (env.sttTmpDir, x) := by
                  unfold transcribe_text_to_speech
                  exact tts_snd_exists_other env fs2 ai (env.sttTmpDir, x) hstt
                rw [heq3] at h5
                rw [h5]
                exact hstt2
            · rename_i audio_output_path fs3 heq3
              by_cases hre : env.sttTmpDir = env.reqTmpDir
              · exact fsExists_removeDir_self _ _ _ hre
              · rw [fsExists_removeDir_ne _ _ _ hre]
                have h5 : fsExists (transcribe_text_to_speech env fs2 ai).2
                    (env.sttTmpDir, x) = fsExists fs2 (env.sttTmpDir, x) := by
                  unfold transcribe_text_to_speech
                  exact tts_snd_exists_other env fs2 ai (env.sttTmpDir, x) hstt
                rw [heq3] at h5
                rw [h5]
                exact hstt2
  · simp only [voice_chat]
    split
    · intro d hcon
      cases hcon
    · split
      · intro d hcon
        cases hcon
      · split
        · intro d hcon
          cases hcon
        · split
          · intro d hcon
            cases hcon
          · split
            · intro d hcon
              cases hcon
            · intro d hcon
              injection hcon with hc1 hc2
              rw [hc1]
              simp

/-- C1 witness: concrete instantiation — the upload scratch is empty
after the handler returns, and the tracked synthesized file is gone
after the shutdown cleanup runs. -/
theorem c1_witness :
    fsExists (voice_chat envDefault fsAllArtifacts "a.wav" "AUDIO").fs
        (envDefault.reqTmpDir, "upload.bin") = false
    ∧ fsExists
        (cleanup_temp_files
          (voice_chat envDefault fsAllArtifacts "a.wav" "AUDIO").tempFiles
          (voice_chat envDefault fsAllArtifacts "a.wav" "AUDIO").fs)
        (ttsOutputPath envDefault) = false := by
  have h := c1_amended_scratch_cleared_tts_artifact_deferred envDefault
    fsAllArtifacts "a.wav" "AUDIO" "upload.bin" (ttsOutputPath envDefault)
    (by decide) (by decide) (by decide)
  exact ⟨h.1, h.2.2.2 (by decide)⟩
